import Mathlib

/-!
Shallow embedding of the PASCAL VOC dataset adapter
(`pysemseg/datasets/pascal_voc/pascal.py`), the transform pipeline it
configures, and the tensorboard metrics logger
(`loggers/tensorboard_logger.py`) of the semseg repository, together with
proofs of the documented properties.

The filesystem, image decoding and the imported transform primitives are
modelled explicitly; a `FS` value stands for the state of the disk.
-/

set_option maxHeartbeats 1000000

deriving instance DecidableEq for Except

namespace SemSeg

/-- A function-backed raster of height `h` and width `w`; positions outside
the rectangle are given by the total `data` function but are never meaningful. -/
structure Img (α : Type) where
  h : Nat
  w : Nat
  data : Nat → Nat → α

/-- An RGB pixel with exact rational channel values. -/
abbrev Pix : Type := ℚ × ℚ × ℚ

/-- The process-level random state consumed by the randomized transforms:
a stream of rational draws, each intended to lie in `[0, 1]`. -/
abbrev RNG : Type := List ℚ

/-- Pull one random draw off the stream (an exhausted stream yields `0`). -/
def draw : RNG → ℚ × RNG
  | [] => (0, [])
  | x :: xs => (x, xs)

/-- The state of the filesystem and of the image decoder, as seen by the
dataset adapter: which paths exist, the lines of each readable text file,
and the decoded content of image files. -/
structure FS where
  pathExists : String → Bool
  readLines : String → Option (List String)
  decodeColor : String → Img Pix
  decodeGray : String → Img Nat
  expanduser : String → String

/-- `os.path.join` for the fixed relative layouts used by the adapter. -/
def joinPath (a b : String) : String := a ++ "/" ++ b

/-- Python `str.strip()`: drop whitespace from both ends of the string. -/
def strip (s : String) : String :=
  ⟨((s.data.dropWhile Char.isWhitespace).reverse.dropWhile Char.isWhitespace).reverse⟩

namespace pascal

/-- One entry of the indexed sample collection, as built by
`_parse_image_paths`: the sample id, the resolved image path and the
resolved label path (`none` when the label file does not exist). -/
structure ImageEntry where
  id : String
  image_filepath : String
  gt_filepath : Option String
deriving DecidableEq

/-- `_read_image_ids`: read the split file and strip each line.  A missing
file is a fatal I/O error, reported here as `none`. -/
def read_image_ids (fs : FS) (split_filepath : String) : Option (List String) :=
  (fs.readLines split_filepath).map (fun lines => lines.map strip)

/-- `_parse_image_paths`: keep each candidate id whose resolved image file
exists, recording the resolved label path only when the label file exists. -/
def parse_image_paths (fs : FS) (image_dir ground_truth_dir : String)
    (image_ids : List String) : List ImageEntry :=
  image_ids.filterMap (fun image_id =>
    let img_path := joinPath image_dir (image_id ++ ".jpg")
    let mask_path := joinPath ground_truth_dir (image_id ++ ".png")
    if fs.pathExists img_path then
      some { id := image_id, image_filepath := img_path,
             gt_filepath := if fs.pathExists mask_path then some mask_path else none }
    else none)

/-- The ways `PascalVOCSegmentation.__init__` can fail: the split-name
assertion, a missing split-id file, and the final per-split dictionary
lookup. -/
inductive InitError where
  | assertionError
  | ioError (path : String)
  | keyError (key : String)
deriving DecidableEq

/-- The state of a constructed `PascalVOCSegmentation` object. -/
structure PascalVOCSegmentation where
  root : String
  split : String
  train_image_data : List ImageEntry
  train_ids : Finset String
  val_ids : Finset String
  val_image_data : List ImageEntry
  image_data : List ImageEntry
deriving DecidableEq

/-- `PascalVOCSegmentation.__init__`: assert the split name, read the four
split-id files (fatal I/O error when missing), build the training data from
the official-train ids resolved against the official directories plus the
benchmark-train and benchmark-val ids resolved against the benchmark
directories, compute the validation ids as official-val minus the full
training id set, and finally select the per-split collection from a
dictionary holding only the `train` and `val` keys.  A Python id set is
modelled as the deduplicated list of its elements (its iteration order is
unspecified, so one representative order is fixed) together with the
`Finset` of its elements for the stored set-valued attributes. -/
def PascalVOCSegmentation.init (fs : FS) (root split : String) :
    Except InitError PascalVOCSegmentation :=
  if split ∈ (["train", "test", "val"] : List String) then
    match read_image_ids fs (joinPath root "benchmark_RELEASE/dataset/train.txt") with
    | none => .error (.ioError (joinPath root "benchmark_RELEASE/dataset/train.txt"))
    | some benchmark_train_list =>
    match read_image_ids fs (joinPath root "benchmark_RELEASE/dataset/val.txt") with
    | none => .error (.ioError (joinPath root "benchmark_RELEASE/dataset/val.txt"))
    | some benchmark_val_list =>
    match read_image_ids fs (joinPath root "VOCdevkit/VOC2012/ImageSets/Segmentation/train.txt") with
    | none => .error (.ioError (joinPath root "VOCdevkit/VOC2012/ImageSets/Segmentation/train.txt"))
    | some voc2012_train_list =>
    match read_image_ids fs (joinPath root "VOCdevkit/VOC2012/ImageSets/Segmentation/val.txt") with
    | none => .error (.ioError (joinPath root "VOCdevkit/VOC2012/ImageSets/Segmentation/val.txt"))
    | some voc2012_val_list =>
      let benchmark_train_ids := benchmark_train_list.dedup
      let benchmark_val_ids := benchmark_val_list.dedup
      let voc2012_train_ids := voc2012_train_list.dedup
      let voc2012_val_ids := voc2012_val_list.dedup
      let train_image_data :=
        parse_image_paths fs
          (joinPath root "VOCdevkit/VOC2012/JPEGImages")
          (joinPath root "VOCdevkit/VOC2012/SegmentationClassLabels")
          voc2012_train_ids ++
        parse_image_paths fs
          (joinPath root "benchmark_RELEASE/dataset/img")
          (joinPath root "benchmark_RELEASE/dataset/cls_labels")
          (benchmark_train_ids ++ benchmark_val_ids).dedup
      let train_ids :=
        voc2012_train_ids.toFinset ∪ benchmark_val_ids.toFinset ∪
          benchmark_train_ids.toFinset
      let val_ids := voc2012_val_ids.toFinset \ train_ids
      let val_image_data :=
        parse_image_paths fs
          (joinPath root "VOCdevkit/VOC2012/JPEGImages")
          (joinPath root "VOCdevkit/VOC2012/SegmentationClassLabels")
          (voc2012_val_ids.filter (fun id => ¬ id ∈ train_ids))
      if split = "train" then
        .ok ⟨fs.expanduser root, split, train_image_data, train_ids, val_ids,
             val_image_data, train_image_data⟩
      else if split = "val" then
        .ok ⟨fs.expanduser root, split, train_image_data, train_ids, val_ids,
             val_image_data, val_image_data⟩
      else .error (.keyError split)
  else .error .assertionError

/-- The official-train id set read from
`VOCdevkit/VOC2012/ImageSets/Segmentation/train.txt` (empty if unreadable). -/
def officialTrainIds (fs : FS) (root : String) : Finset String :=
  ((read_image_ids fs (joinPath root "VOCdevkit/VOC2012/ImageSets/Segmentation/train.txt")).getD []).toFinset

/-- The official-val id set read from
`VOCdevkit/VOC2012/ImageSets/Segmentation/val.txt` (empty if unreadable). -/
def officialValIds (fs : FS) (root : String) : Finset String :=
  ((read_image_ids fs (joinPath root "VOCdevkit/VOC2012/ImageSets/Segmentation/val.txt")).getD []).toFinset

/-- The benchmark-train id set read from
`benchmark_RELEASE/dataset/train.txt` (empty if unreadable). -/
def benchmarkTrainIds (fs : FS) (root : String) : Finset String :=
  ((read_image_ids fs (joinPath root "benchmark_RELEASE/dataset/train.txt")).getD []).toFinset

/-- The benchmark-val id set read from
`benchmark_RELEASE/dataset/val.txt` (empty if unreadable). -/
def benchmarkValIds (fs : FS) (root : String) : Finset String :=
  ((read_image_ids fs (joinPath root "benchmark_RELEASE/dataset/val.txt")).getD []).toFinset

/-- The image returned by a `CV2ImageLoader`: a color image or a
single-channel label map. -/
abbrev LoadedImage : Type := Img Pix ⊕ Img Nat

/-- The load-time errors of indexed access. -/
inductive LoadError where
  | noneTypeError
  | indexError
deriving DecidableEq

/-- Modelled from the spec: `pysemseg.transforms.CV2ImageLoader` is not
under `src/`.  Per the spec, loading decodes the image in color and the
label in single-channel mode, and attempting to load an absent (`None`)
path raises an explicit load-time error. -/
def CV2ImageLoader (grayscale : Bool) (fs : FS) (path : Option String) :
    Except LoadError LoadedImage :=
  match path with
  | none => .error .noneTypeError
  | some p => .ok (if grayscale then .inr (fs.decodeGray p) else .inl (fs.decodeColor p))

/-- `PascalVOCSegmentation.__getitem__`: index the per-split collection
(an out-of-range index is an IndexError), load the image in color mode and
the label in single-channel mode, and return the triple. -/
def PascalVOCSegmentation.getitem (fs : FS) (d : PascalVOCSegmentation)
    (index : Nat) : Except LoadError (String × LoadedImage × LoadedImage) :=
  match d.image_data[index]? with
  | none => .error .indexError
  | some item =>
    match CV2ImageLoader false fs (some item.image_filepath) with
    | .error e => .error e
    | .ok image =>
      match CV2ImageLoader true fs item.gt_filepath with
      | .error e => .error e
      | .ok target => .ok (item.id, image, target)

/-- `PascalVOCSegmentation.__len__`. -/
def PascalVOCSegmentation.len (d : PascalVOCSegmentation) : Nat :=
  d.image_data.length

end pascal

namespace transforms

/-- The state threaded through the joint augmentations: the image, the
label, and the random stream. -/
abbrev JS : Type := (Img Pix × Img Nat) × RNG

/-- The state threaded through the image-only augmentations. -/
abbrev IS : Type := Img Pix × RNG

/-- Modelled from the spec: `pysemseg.transforms.Compose` is not under
`src/`.  It applies the listed transforms in sequence. -/
def Compose {α : Type} (ts : List (α → α)) : α → α :=
  fun x => ts.foldl (fun a t => t a) x

/-- Apply a function to every pixel. -/
def mapImg {α β : Type} (f : α → β) (img : Img α) : Img β :=
  ⟨img.h, img.w, fun i j => f (img.data i j)⟩

/-- Modelled from the spec: `pysemseg.transforms.ToFloatImage` is not under
`src/`.  Per the spec it converts the raw image to a floating-point
representation scaled to `[0, 1]`; raw 8-bit channels are divided by 255. -/
def ToFloatImage (img : Img Pix) : Img Pix :=
  mapImg (fun p => (p.1 / 255, p.2.1 / 255, p.2.2 / 255)) img

/-- The sub-rectangle of height `ch` and width `cw` whose top-left corner is
`(t, l)`. -/
def cropImg {α : Type} (t l ch cw : Nat) (img : Img α) : Img α :=
  ⟨ch, cw, fun i j => img.data (t + i) (l + j)⟩

/-- Modelled from the spec: `pysemseg.transforms.RandomCrop` is not under
`src/`; the spec says only "random crop" applied jointly.  Modelled as
drawing a random top-left corner and a random extent within bounds and
taking that sub-rectangle of both image and label. -/
def RandomCrop (s : JS) : JS :=
  let ((image, target), rng) := s
  let (r1, rng) := draw rng
  let (r2, rng) := draw rng
  let (r3, rng) := draw rng
  let (r4, rng) := draw rng
  let t := min (Nat.floor (r1 * (image.h : ℚ))) image.h
  let l := min (Nat.floor (r2 * (image.w : ℚ))) image.w
  let ch := min (Nat.floor (r3 * ((image.h - t : Nat) : ℚ))) (image.h - t)
  let cw := min (Nat.floor (r4 * ((image.w - l : Nat) : ℚ))) (image.w - l)
  ((cropImg t l ch cw image, cropImg t l ch cw target), rng)

/-- The output dimensions of an aspect-preserving scale of an `h × w`
raster into a `th × tw` target box. -/
def scaleDims (th tw h w : Nat) : Nat × Nat :=
  if h * tw ≤ th * w then (h * tw / w, tw) else (th, w * th / h)

/-- Nearest-neighbour resample of a raster to the aspect-fit dimensions of
the `th × tw` target box. -/
def scaleImg {α : Type} (th tw : Nat) (img : Img α) : Img α :=
  let d := scaleDims th tw img.h img.w
  ⟨d.1, d.2, fun i j => img.data (i * img.h / d.1) (j * img.w / d.2)⟩

/-- Modelled from the spec: `pysemseg.transforms.ScaleTo` is not under
`src/`.  Per the spec it scales uniformly (preserving aspect) towards the
fixed target size, after which padding reaches the exact target; it is
deterministic and applied jointly to image and label. -/
def ScaleTo (size : Nat × Nat) (s : JS) : JS :=
  ((scaleImg size.1 size.2 s.1.1, scaleImg size.1 size.2 s.1.2), s.2)

/-- Pad a raster on the bottom and right up to at least `th × tw`, filling
the new positions with `fill`. -/
def padImg {α : Type} (th tw : Nat) (fill : α) (img : Img α) : Img α :=
  ⟨max img.h th, max img.w tw,
   fun i j => if i < img.h ∧ j < img.w then img.data i j else fill⟩

/-- Modelled from the spec: `pysemseg.transforms.PadTo` is not under
`src/`.  Per the spec it pads to reach the exact target dimensions with the
given fill value (zero by default for the image, the ignore index for the
label). -/
def PadTo {α : Type} (size : Nat × Nat) (fill : α) : Img α → Img α :=
  padImg size.1 size.2 fill

/-- Modelled from the spec: `pysemseg.transforms.Concat` is not under
`src/`.  It pairs one transform for the image with one for the label. -/
def Concat {α β : Type} (t1 : Img α → Img α) (t2 : Img β → Img β)
    (s : (Img α × Img β) × RNG) : (Img α × Img β) × RNG :=
  ((t1 s.1.1, t2 s.1.2), s.2)

/-- Mirror a raster along the width axis. -/
def hflip {α : Type} (img : Img α) : Img α :=
  ⟨img.h, img.w, fun i j => img.data i (img.w - 1 - j)⟩

/-- Modelled from the spec: `pysemseg.transforms.RandomHorizontalFlip` is
not under `src/`.  Per the spec the same random flip decision is applied to
image and label. -/
def RandomHorizontalFlip (s : JS) : JS :=
  if (draw s.2).1 < 1 / 2 then ((hflip s.1.1, hflip s.1.2), (draw s.2).2)
  else ((s.1.1, s.1.2), (draw s.2).2)

/-- The pixel-level semantics of the photometric operations.  The spec does
not give the pixel formulas of the hue/saturation and contrast jitters, so
the development is parametrized by them; every theorem below holds for all
such semantics. -/
structure PhotometricSem where
  hueSat : ℚ → ℚ → Pix → Pix
  contrast : ℚ → Pix → Pix

/-- Modelled from the spec: `pysemseg.transforms.RandomHueSaturation` is
not under `src/`.  It draws a hue delta in `[-hue_delta, hue_delta]` and a
saturation scale in the given range and applies the (parametrized)
pixelwise jitter to the image only. -/
def RandomHueSaturation (ps : PhotometricSem) (hue_delta : ℚ)
    (saturation_scale_range : ℚ × ℚ) (s : IS) : IS :=
  let (image, rng) := s
  let (r1, rng) := draw rng
  let (r2, rng) := draw rng
  let hd := -hue_delta + r1 * (2 * hue_delta)
  let ss := saturation_scale_range.1 +
    r2 * (saturation_scale_range.2 - saturation_scale_range.1)
  (mapImg (ps.hueSat hd ss) image, rng)

/-- Modelled from the spec: `pysemseg.transforms.RandomContrast` is not
under `src/`.  It draws a contrast scale in `[lo, hi]` and applies the
(parametrized) pixelwise contrast change to the image only. -/
def RandomContrast (ps : PhotometricSem) (lo hi : ℚ) (s : IS) : IS :=
  let (image, rng) := s
  let (r, rng) := draw rng
  let c := lo + r * (hi - lo)
  (mapImg (ps.contrast c) image, rng)

/-- Modelled from the spec: `pysemseg.transforms.RandomBrightness` is not
under `src/`.  It draws a brightness shift in `[lo, hi]` and adds it to
every channel of the image only. -/
def RandomBrightness (lo hi : ℚ) (s : IS) : IS :=
  let (image, rng) := s
  let (r, rng) := draw rng
  let d := lo + r * (hi - lo)
  (mapImg (fun p => (p.1 + d, p.2.1 + d, p.2.2 + d)) image, rng)

/-- A channels-first tensor with exact rational values. -/
structure Tensor3 where
  h : Nat
  w : Nat
  data : Nat → Nat → Nat → ℚ

/-- Modelled from the spec: `pysemseg.transforms.ToTensor` is not under
`src/`.  It moves the image to a channels-first tensor layout. -/
def ToTensor (img : Img Pix) : Tensor3 :=
  ⟨img.h, img.w, fun c i j =>
    match c with
    | 0 => (img.data i j).1
    | 1 => (img.data i j).2.1
    | 2 => (img.data i j).2.2
    | _ => 0⟩

/-- `torchvision.transforms.Normalize` (external collaborator): subtract
the per-channel mean and divide by the per-channel standard deviation. -/
def Normalize (mean std : List ℚ) (t : Tensor3) : Tensor3 :=
  ⟨t.h, t.w, fun c i j => (t.data c i j - mean.getD c 0) / std.getD c 1⟩

/-- Modelled from the spec: `pysemseg.transforms.ToCategoryTensor` is not
under `src/`.  It casts label pixel values directly to class indices,
preserving the ignore-index sentinel. -/
def ToCategoryTensor (img : Img Nat) : Img Nat :=
  ⟨img.h, img.w, fun i j => img.data i j⟩

end transforms

namespace PascalVOCTransform

open transforms

/-- The `image_loader` pipeline of `PascalVOCTransform.__init__`. -/
def image_loader : Img Pix → Img Pix :=
  Compose [ToFloatImage]

/-- The `image_augmentations` pipeline of `PascalVOCTransform.__init__`:
hue/saturation, then contrast, then brightness, each randomized
independently. -/
def image_augmentations (ps : PhotometricSem) : IS → IS :=
  Compose [
    RandomHueSaturation ps 0.05 (0.7, 1.3),
    RandomContrast ps 0.8 1.2,
    RandomBrightness (-32 / 255) (32 / 255)]

/-- The `joint_augmentations` pipeline of `PascalVOCTransform.__init__`:
random crop, scale into the 513 × 513 box, pad the image with zeros and the
label with the ignore index 255 to exactly 513 × 513, then a joint random
horizontal flip. -/
def joint_augmentations : JS → JS :=
  Compose [
    RandomCrop,
    ScaleTo (513, 513),
    Concat (PadTo (513, 513) ((0 : ℚ), (0 : ℚ), (0 : ℚ))) (PadTo (513, 513) (255 : Nat)),
    RandomHorizontalFlip]

/-- The `tensor_transforms` pipeline of `PascalVOCTransform.__init__`:
tensor layout conversion followed by ImageNet normalization. -/
def tensor_transforms : Img Pix → Tensor3 := fun image =>
  Normalize [0.485, 0.456, 0.406] [0.229, 0.224, 0.225] (ToTensor image)

/-- `PascalVOCTransform.__call__`: float conversion always; in train mode
the joint augmentations on image and label followed by the image-only
photometric augmentations; then tensor conversion and normalization of the
image and category-tensor conversion of the label. -/
def call (ps : PhotometricSem) (mode : String) (image : Img Pix)
    (target : Img Nat) (rng : RNG) : (Tensor3 × Img Nat) × RNG :=
  let image := image_loader image
  if mode = "train" then
    let (p, rng) := joint_augmentations ((image, target), rng)
    let (image2, rng) := image_augmentations ps (p.1, rng)
    ((tensor_transforms image2, ToCategoryTensor p.2), rng)
  else
    ((tensor_transforms image, ToCategoryTensor target), rng)

end PascalVOCTransform

namespace loggers

/-- A nested metric mapping: scalar leaves and nested dictionaries. -/
inductive MetricValue where
  | scalar (v : ℚ)
  | dict (entries : List (String × MetricValue))

/-- A nested metric dictionary. -/
abbrev Metrics : Type := List (String × MetricValue)

mutual

/-- Modelled from the spec: `utils.flatten_dict` is not under `src/`.
Flatten one keyed value: a scalar keeps its key, a nested dictionary
prefixes its flattened entries with the key and a dot. -/
def flattenValue (key : String) : MetricValue → List (String × ℚ)
  | .scalar v => [(key, v)]
  | .dict es => (flattenEntries es).map (fun kv => (key ++ "." ++ kv.1, kv.2))

/-- Modelled from the spec: flatten the entries of a nested metric
dictionary into dotted-key scalar entries, in order. -/
def flattenEntries : Metrics → List (String × ℚ)
  | [] => []
  | (k, m) :: rest => flattenValue k m ++ flattenEntries rest

end

/-- Modelled from the spec: `utils.flatten_dict`. -/
def flatten_dict (metrics : Metrics) : List (String × ℚ) :=
  flattenEntries metrics

/-- One scalar record written to the summary writer. -/
structure ScalarEntry where
  tag : String
  value : ℚ
  step : Nat
deriving DecidableEq

/-- `SummaryWriter.add_scalar` (external collaborator): append one scalar
record to the log. -/
def add_scalar (w : List ScalarEntry) (tag : String) (value : ℚ)
    (iteration : Nat) : List ScalarEntry :=
  w ++ [⟨tag, value, iteration⟩]

/-- `TensorboardLogger.log_metrics`: flatten the nested metrics and write
one scalar per flattened key, tagged `prefix/key`, at the given iteration. -/
def TensorboardLogger.log_metrics (w : List ScalarEntry) (iteration : Nat)
    (metrics : Metrics) (pre : String) : List ScalarEntry :=
  (flatten_dict metrics).foldl
    (fun acc kv => add_scalar acc (pre ++ "/" ++ kv.1) kv.2 iteration) w

end loggers

/-! Concrete fixtures used to instantiate the theorems below on explicit
inputs. -/

/-- A filesystem holding all four split-id files (benchmark train `x`,
benchmark val empty, official train `b`, official val `a b`), on which
every image and label path exists. -/
def fsW : FS where
  pathExists := fun _ => true
  readLines := fun p =>
    if p = "r/benchmark_RELEASE/dataset/train.txt" then some ["x"]
    else if p = "r/benchmark_RELEASE/dataset/val.txt" then some []
    else if p = "r/VOCdevkit/VOC2012/ImageSets/Segmentation/train.txt" then some ["b"]
    else if p = "r/VOCdevkit/VOC2012/ImageSets/Segmentation/val.txt" then some ["a", "b"]
    else none
  decodeColor := fun _ => ⟨0, 0, fun _ _ => (0, 0, 0)⟩
  decodeGray := fun _ => ⟨0, 0, fun _ _ => 0⟩
  expanduser := fun s => s

/-- The dataset state produced by constructing on `fsW` with split `val`. -/
def dW : pascal.PascalVOCSegmentation :=
  ⟨"r", "val",
   [⟨"b", "r/VOCdevkit/VOC2012/JPEGImages/b.jpg",
     some "r/VOCdevkit/VOC2012/SegmentationClassLabels/b.png"⟩,
    ⟨"x", "r/benchmark_RELEASE/dataset/img/x.jpg",
     some "r/benchmark_RELEASE/dataset/cls_labels/x.png"⟩],
   {"b", "x"}, {"a"},
   [⟨"a", "r/VOCdevkit/VOC2012/JPEGImages/a.jpg",
     some "r/VOCdevkit/VOC2012/SegmentationClassLabels/a.png"⟩],
   [⟨"a", "r/VOCdevkit/VOC2012/JPEGImages/a.jpg",
     some "r/VOCdevkit/VOC2012/SegmentationClassLabels/a.png"⟩]⟩

/-- A root holding only the two official VOC id files: both benchmark id
files are absent. -/
def fsC2 : FS where
  pathExists := fun _ => true
  readLines := fun p =>
    if p = "r/VOCdevkit/VOC2012/ImageSets/Segmentation/train.txt" then some ["b"]
    else if p = "r/VOCdevkit/VOC2012/ImageSets/Segmentation/val.txt" then some ["a", "b"]
    else none
  decodeColor := fun _ => ⟨0, 0, fun _ _ => (0, 0, 0)⟩
  decodeGray := fun _ => ⟨0, 0, fun _ _ => 0⟩
  expanduser := fun s => s

/-- A root whose benchmark id files exist but are empty, with official
train ids `b` and official val ids `a b`. -/
def fsC2e : FS where
  pathExists := fun _ => true
  readLines := fun p =>
    if p = "r/benchmark_RELEASE/dataset/train.txt" then some []
    else if p = "r/benchmark_RELEASE/dataset/val.txt" then some []
    else if p = "r/VOCdevkit/VOC2012/ImageSets/Segmentation/train.txt" then some ["b"]
    else if p = "r/VOCdevkit/VOC2012/ImageSets/Segmentation/val.txt" then some ["a", "b"]
    else none
  decodeColor := fun _ => ⟨0, 0, fun _ _ => (0, 0, 0)⟩
  decodeGray := fun _ => ⟨0, 0, fun _ _ => 0⟩
  expanduser := fun s => s

/-- A dataset state whose indexed collection has one entry with an absent
label path and one entry with a present label path. -/
def d5 : pascal.PascalVOCSegmentation :=
  ⟨"r", "val", [], ∅, ∅, [],
   [⟨"a", "imgs/a.jpg", none⟩, ⟨"b", "imgs/b.jpg", some "lbls/b.png"⟩]⟩

/-- A concrete one-pixel image. -/
def imgW : Img Pix := ⟨1, 1, fun _ _ => (10, 20, 30)⟩

/-- A concrete one-pixel label map. -/
def lblW : Img Nat := ⟨1, 1, fun _ _ => 5⟩

/-- A concrete photometric semantics (identity jitters). -/
def psW : transforms.PhotometricSem := ⟨fun _ _ p => p, fun _ p => p⟩

namespace pascal

theorem mem_parse_image_paths {fs : FS} {image_dir ground_truth_dir : String}
    {image_ids : List String} {e : ImageEntry}
    (he : e ∈ parse_image_paths fs image_dir ground_truth_dir image_ids) :
    e.id ∈ image_ids ∧
    e.image_filepath = joinPath image_dir (e.id ++ ".jpg") ∧
    fs.pathExists e.image_filepath = true ∧
    e.gt_filepath = (if fs.pathExists (joinPath ground_truth_dir (e.id ++ ".png"))
      then some (joinPath ground_truth_dir (e.id ++ ".png")) else none) := by
  simp only [parse_image_paths, List.mem_filterMap] at he
  obtain ⟨a, ha, hfa⟩ := he
  split_ifs at hfa with h1 h2
  · cases Option.some.inj hfa
    exact ⟨ha, rfl, h1, by rw [if_pos h2]⟩
  · cases Option.some.inj hfa
    exact ⟨ha, rfl, h1, by rw [if_neg h2]⟩

theorem parse_image_paths_mem_of {fs : FS} {image_dir ground_truth_dir : String}
    {image_ids : List String} {id : String}
    (hid : id ∈ image_ids)
    (hex : fs.pathExists (joinPath image_dir (id ++ ".jpg")) = true) :
    (⟨id, joinPath image_dir (id ++ ".jpg"),
      if fs.pathExists (joinPath ground_truth_dir (id ++ ".png"))
      then some (joinPath ground_truth_dir (id ++ ".png")) else none⟩ : ImageEntry)
      ∈ parse_image_paths fs image_dir ground_truth_dir image_ids := by
  simp only [parse_image_paths, List.mem_filterMap]
  exact ⟨id, hid, by rw [if_pos hex]⟩

theorem parse_image_paths_length {fs : FS} {image_dir ground_truth_dir : String}
    {image_ids : List String}
    (hall : ∀ id ∈ image_ids, fs.pathExists (joinPath image_dir (id ++ ".jpg")) = true) :
    (parse_image_paths fs image_dir ground_truth_dir image_ids).length =
      image_ids.length := by
  induction image_ids with
  | nil => rfl
  | cons a l ih =>
    have ha := hall a (List.mem_cons_self a l)
    simp only [parse_image_paths, List.filterMap_cons] at ih ⊢
    rw [if_pos ha]
    simp only [List.length_cons, ih (fun id hid => hall id (List.mem_cons_of_mem a hid))]

theorem init_ok_elim {fs : FS} {root split : String} {d : PascalVOCSegmentation}
    (h : PascalVOCSegmentation.init fs root split = .ok d) :
    ∃ btl bvl vtl vvl : List String,
      read_image_ids fs (joinPath root "benchmark_RELEASE/dataset/train.txt") = some btl ∧
      read_image_ids fs (joinPath root "benchmark_RELEASE/dataset/val.txt") = some bvl ∧
      read_image_ids fs (joinPath root "VOCdevkit/VOC2012/ImageSets/Segmentation/train.txt") = some vtl ∧
      read_image_ids fs (joinPath root "VOCdevkit/VOC2012/ImageSets/Segmentation/val.txt") = some vvl ∧
      d.train_ids = vtl.dedup.toFinset ∪ bvl.dedup.toFinset ∪ btl.dedup.toFinset ∧
      d.val_ids = vvl.dedup.toFinset \ d.train_ids ∧
      d.train_image_data =
        parse_image_paths fs (joinPath root "VOCdevkit/VOC2012/JPEGImages")
          (joinPath root "VOCdevkit/VOC2012/SegmentationClassLabels") vtl.dedup ++
        parse_image_paths fs (joinPath root "benchmark_RELEASE/dataset/img")
          (joinPath root "benchmark_RELEASE/dataset/cls_labels")
          (btl.dedup ++ bvl.dedup).dedup ∧
      d.val_image_data =
        parse_image_paths fs (joinPath root "VOCdevkit/VOC2012/JPEGImages")
          (joinPath root "VOCdevkit/VOC2012/SegmentationClassLabels")
          (vvl.dedup.filter (fun id => ¬ id ∈ d.train_ids)) ∧
      ((split = "train" ∧ d.image_data = d.train_image_data) ∨
       (split = "val" ∧ d.image_data = d.val_image_data)) := by
  simp only [PascalVOCSegmentation.init] at h
  split at h
  · split at h
    next => exact absurd h (by simp)
    next btl hbt =>
      split at h
      next => exact absurd h (by simp)
      next bvl hbv =>
        split at h
        next => exact absurd h (by simp)
        next vtl hvt =>
          split at h
          next => exact absurd h (by simp)
          next vvl hvv =>
            split at h
            next hsp =>
              injection h with h2
              subst h2
              exact ⟨btl, bvl, vtl, vvl, hbt, hbv, hvt, hvv, rfl, rfl, rfl, rfl,
                Or.inl ⟨hsp, rfl⟩⟩
            next hsp =>
              split at h
              next hsp2 =>
                injection h with h2
                subst h2
                exact ⟨btl, bvl, vtl, vvl, hbt, hbv, hvt, hvv, rfl, rfl, rfl, rfl,
                  Or.inr ⟨hsp2, rfl⟩⟩
              next hsp2 => exact absurd h (by simp)
  · exact absurd h (by simp)

theorem dedup_toFinset {α : Type} [DecidableEq α] (l : List α) :
    l.dedup.toFinset = l.toFinset := by
  ext a
  simp [List.mem_dedup]

/-- C1: for every dataset root and split, on successful construction the
validation id set is computed exactly as the official-val id set minus the
training id set, and no constructed validation sample carries an id that
lies in the official validation ids and also in the training id set. -/
theorem val_excludes_training_ids {fs : FS} {root split : String}
    {d : PascalVOCSegmentation}
    (h : PascalVOCSegmentation.init fs root split = .ok d) :
    d.val_ids = officialValIds fs root \ d.train_ids ∧
    ∀ id, id ∈ officialValIds fs root → id ∈ d.train_ids →
      ∀ e ∈ d.val_image_data, e.id ≠ id := by
  obtain ⟨btl, bvl, vtl, vvl, hbt, hbv, hvt, hvv, htid, hvid, htd, hvd, hsel⟩ :=
    init_ok_elim h
  constructor
  · rw [hvid, officialValIds, hvv]
    simp only [Option.getD_some, dedup_toFinset]
  · intro id hval htrain e he heq
    rw [hvd] at he
    have hm := (mem_parse_image_paths he).1
    rw [List.mem_filter] at hm
    exact (of_decide_eq_true hm.2) (heq ▸ htrain)

/-- C1 witness: the leakage exclusion instantiated on the concrete
filesystem `fsW`, whose construction with split `val` yields `dW`. -/
theorem val_excludes_training_ids_witness :
    dW.val_ids = officialValIds fsW "r" \ dW.train_ids ∧
    ∀ id, id ∈ officialValIds fsW "r" → id ∈ dW.train_ids →
      ∀ e ∈ dW.val_image_data, e.id ≠ id :=
  @val_excludes_training_ids fsW "r" "val" dW (by decide)

/-- C3: an id produces a sample exactly when its resolved image file
exists (missing images are dropped silently rather than failing), and every
produced sample records the resolved label path when the label file exists
and `none` otherwise. -/
theorem parse_image_paths_existence (fs : FS)
    (image_dir ground_truth_dir : String) (image_ids : List String) :
    (∀ e ∈ parse_image_paths fs image_dir ground_truth_dir image_ids,
       fs.pathExists e.image_filepath = true ∧
       e.image_filepath = joinPath image_dir (e.id ++ ".jpg") ∧
       e.gt_filepath = (if fs.pathExists (joinPath ground_truth_dir (e.id ++ ".png"))
         then some (joinPath ground_truth_dir (e.id ++ ".png")) else none)) ∧
    (∀ id, (∃ e ∈ parse_image_paths fs image_dir ground_truth_dir image_ids, e.id = id) →
       fs.pathExists (joinPath image_dir (id ++ ".jpg")) = true) ∧
    (∀ id ∈ image_ids, fs.pathExists (joinPath image_dir (id ++ ".jpg")) = true →
       ∃ e ∈ parse_image_paths fs image_dir ground_truth_dir image_ids, e.id = id) := by
  refine ⟨?_, ?_, ?_⟩
  · intro e he
    obtain ⟨h1, h2, h3, h4⟩ := mem_parse_image_paths he
    exact ⟨h3, h2, h4⟩
  · intro id hid
    obtain ⟨e, he, rfl⟩ := hid
    obtain ⟨h1, h2, h3, h4⟩ := mem_parse_image_paths he
    rw [← h2]
    exact h3
  · intro id hid hex
    exact ⟨⟨id, joinPath image_dir (id ++ ".jpg"),
      if fs.pathExists (joinPath ground_truth_dir (id ++ ".png"))
      then some (joinPath ground_truth_dir (id ++ ".png")) else none⟩,
      parse_image_paths_mem_of hid hex, rfl⟩

/-- C3 witness: the filter property instantiated on `fsW` with the single
candidate id `b`. -/
theorem parse_image_paths_existence_witness :
    ∃ e ∈ parse_image_paths fsW "imgs" "lbls" ["b"], e.id = "b" :=
  (parse_image_paths_existence fsW "imgs" "lbls" ["b"]).2.2 "b" (by decide) (by decide)

/-- C4: on successful construction, the training id set is exactly the
union of the official-train, benchmark-train and benchmark-val id sets;
every training sample is resolved against the official images and labels
directories when it stems from the official-train list and against the
benchmark images and labels directories when it stems from the benchmark
lists, and every id of the union whose image file exists in its origin
image directory yields a training sample with both paths resolved against
the origin directories. -/
theorem train_data_id_union {fs : FS} {root split : String}
    {d : PascalVOCSegmentation}
    (h : PascalVOCSegmentation.init fs root split = .ok d) :
    d.train_ids = officialTrainIds fs root ∪ benchmarkTrainIds fs root ∪
      benchmarkValIds fs root ∧
    (∀ e ∈ d.train_image_data,
      (e.id ∈ officialTrainIds fs root ∧
       e.image_filepath =
         joinPath (joinPath root "VOCdevkit/VOC2012/JPEGImages") (e.id ++ ".jpg") ∧
       e.gt_filepath = (if fs.pathExists
           (joinPath (joinPath root "VOCdevkit/VOC2012/SegmentationClassLabels") (e.id ++ ".png"))
         then some (joinPath (joinPath root "VOCdevkit/VOC2012/SegmentationClassLabels") (e.id ++ ".png"))
         else none)) ∨
      (e.id ∈ benchmarkTrainIds fs root ∪ benchmarkValIds fs root ∧
       e.image_filepath =
         joinPath (joinPath root "benchmark_RELEASE/dataset/img") (e.id ++ ".jpg") ∧
       e.gt_filepath = (if fs.pathExists
           (joinPath (joinPath root "benchmark_RELEASE/dataset/cls_labels") (e.id ++ ".png"))
         then some (joinPath (joinPath root "benchmark_RELEASE/dataset/cls_labels") (e.id ++ ".png"))
         else none))) ∧
    (∀ id ∈ officialTrainIds fs root,
      fs.pathExists
        (joinPath (joinPath root "VOCdevkit/VOC2012/JPEGImages") (id ++ ".jpg")) = true →
      ∃ e ∈ d.train_image_data, e.id = id ∧
        e.image_filepath =
          joinPath (joinPath root "VOCdevkit/VOC2012/JPEGImages") (id ++ ".jpg") ∧
        e.gt_filepath = (if fs.pathExists
            (joinPath (joinPath root "VOCdevkit/VOC2012/SegmentationClassLabels") (id ++ ".png"))
          then some (joinPath (joinPath root "VOCdevkit/VOC2012/SegmentationClassLabels") (id ++ ".png"))
          else none)) ∧
    (∀ id ∈ benchmarkTrainIds fs root ∪ benchmarkValIds fs root,
      fs.pathExists
        (joinPath (joinPath root "benchmark_RELEASE/dataset/img") (id ++ ".jpg")) = true →
      ∃ e ∈ d.train_image_data, e.id = id ∧
        e.image_filepath =
          joinPath (joinPath root "benchmark_RELEASE/dataset/img") (id ++ ".jpg") ∧
        e.gt_filepath = (if fs.pathExists
            (joinPath (joinPath root "benchmark_RELEASE/dataset/cls_labels") (id ++ ".png"))
          then some (joinPath (joinPath root "benchmark_RELEASE/dataset/cls_labels") (id ++ ".png"))
          else none)) := by
  obtain ⟨btl, bvl, vtl, vvl, hbt, hbv, hvt, hvv, htid, hvid, htd, hvd, hsel⟩ :=
    init_ok_elim h
  have hbtid : benchmarkTrainIds fs root = btl.toFinset := by
    rw [benchmarkTrainIds, hbt]; rfl
  have hbvid : benchmarkValIds fs root = bvl.toFinset := by
    rw [benchmarkValIds, hbv]; rfl
  have hvtid : officialTrainIds fs root = vtl.toFinset := by
    rw [officialTrainIds, hvt]; rfl
  refine ⟨?_, ?_, ?_, ?_⟩
  · rw [htid, hbtid, hbvid, hvtid]
    simp only [dedup_toFinset]
    ext a
    simp only [Finset.mem_union]
    tauto
  · intro e he
    rw [htd] at he
    rcases List.mem_append.mp he with hin | hin
    · obtain ⟨h1, h2, h3, h4⟩ := mem_parse_image_paths hin
      exact Or.inl ⟨by rw [hvtid, List.mem_toFinset]; exact List.mem_dedup.mp h1, h2, h4⟩
    · obtain ⟨h1, h2, h3, h4⟩ := mem_parse_image_paths hin
      refine Or.inr ⟨?_, h2, h4⟩
      rw [List.mem_dedup, List.mem_append] at h1
      rw [hbtid, hbvid, Finset.mem_union, List.mem_toFinset, List.mem_toFinset]
      rcases h1 with h1 | h1
      · exact Or.inl (List.mem_dedup.mp h1)
      · exact Or.inr (List.mem_dedup.mp h1)
  · intro id hid hex
    rw [hvtid, List.mem_toFinset] at hid
    refine ⟨⟨id, joinPath (joinPath root "VOCdevkit/VOC2012/JPEGImages") (id ++ ".jpg"),
      if fs.pathExists
        (joinPath (joinPath root "VOCdevkit/VOC2012/SegmentationClassLabels") (id ++ ".png"))
      then some (joinPath (joinPath root "VOCdevkit/VOC2012/SegmentationClassLabels") (id ++ ".png"))
      else none⟩, ?_, rfl, rfl, rfl⟩
    rw [htd]
    exact List.mem_append.mpr (Or.inl (parse_image_paths_mem_of (List.mem_dedup.mpr hid) hex))
  · intro id hid hex
    rw [hbtid, hbvid, Finset.mem_union, List.mem_toFinset, List.mem_toFinset] at hid
    refine ⟨⟨id, joinPath (joinPath root "benchmark_RELEASE/dataset/img") (id ++ ".jpg"),
      if fs.pathExists
        (joinPath (joinPath root "benchmark_RELEASE/dataset/cls_labels") (id ++ ".png"))
      then some (joinPath (joinPath root "benchmark_RELEASE/dataset/cls_labels") (id ++ ".png"))
      else none⟩, ?_, rfl, rfl, rfl⟩
    rw [htd]
    refine List.mem_append.mpr (Or.inr (parse_image_paths_mem_of ?_ hex))
    rw [List.mem_dedup, List.mem_append]
    rcases hid with hid | hid
    · exact Or.inl (List.mem_dedup.mpr hid)
    · exact Or.inr (List.mem_dedup.mpr hid)

/-- C4 witness: the training-id union and per-origin path resolution
instantiated on the concrete filesystem `fsW`, whose construction with
split `val` yields `dW`. -/
theorem train_data_id_union_witness :
    dW.train_ids = officialTrainIds fsW "r" ∪ benchmarkTrainIds fsW "r" ∪
      benchmarkValIds fsW "r" ∧
    (∀ e ∈ dW.train_image_data,
      (e.id ∈ officialTrainIds fsW "r" ∧
       e.image_filepath =
         joinPath (joinPath "r" "VOCdevkit/VOC2012/JPEGImages") (e.id ++ ".jpg") ∧
       e.gt_filepath = (if fsW.pathExists
           (joinPath (joinPath "r" "VOCdevkit/VOC2012/SegmentationClassLabels") (e.id ++ ".png"))
         then some (joinPath (joinPath "r" "VOCdevkit/VOC2012/SegmentationClassLabels") (e.id ++ ".png"))
         else none)) ∨
      (e.id ∈ benchmarkTrainIds fsW "r" ∪ benchmarkValIds fsW "r" ∧
       e.image_filepath =
         joinPath (joinPath "r" "benchmark_RELEASE/dataset/img") (e.id ++ ".jpg") ∧
       e.gt_filepath = (if fsW.pathExists
           (joinPath (joinPath "r" "benchmark_RELEASE/dataset/cls_labels") (e.id ++ ".png"))
         then some (joinPath (joinPath "r" "benchmark_RELEASE/dataset/cls_labels") (e.id ++ ".png"))
         else none))) ∧
    (∀ id ∈ officialTrainIds fsW "r",
      fsW.pathExists
        (joinPath (joinPath "r" "VOCdevkit/VOC2012/JPEGImages") (id ++ ".jpg")) = true →
      ∃ e ∈ dW.train_image_data, e.id = id ∧
        e.image_filepath =
          joinPath (joinPath "r" "VOCdevkit/VOC2012/JPEGImages") (id ++ ".jpg") ∧
        e.gt_filepath = (if fsW.pathExists
            (joinPath (joinPath "r" "VOCdevkit/VOC2012/SegmentationClassLabels") (id ++ ".png"))
          then some (joinPath (joinPath "r" "VOCdevkit/VOC2012/SegmentationClassLabels") (id ++ ".png"))
          else none)) ∧
    (∀ id ∈ benchmarkTrainIds fsW "r" ∪ benchmarkValIds fsW "r",
      fsW.pathExists
        (joinPath (joinPath "r" "benchmark_RELEASE/dataset/img") (id ++ ".jpg")) = true →
      ∃ e ∈ dW.train_image_data, e.id = id ∧
        e.image_filepath =
          joinPath (joinPath "r" "benchmark_RELEASE/dataset/img") (id ++ ".jpg") ∧
        e.gt_filepath = (if fsW.pathExists
            (joinPath (joinPath "r" "benchmark_RELEASE/dataset/cls_labels") (id ++ ".png"))
          then some (joinPath (joinPath "r" "benchmark_RELEASE/dataset/cls_labels") (id ++ ".png"))
          else none)) :=
  @train_data_id_union fsW "r" "val" dW (by decide)

/-- C5: indexed access on a sample whose label path is absent fails with an
explicit load-time error, and on a sample whose label path is present it
returns the triple of the id, the color-decoded image and the
single-channel-decoded label. -/
theorem getitem_label_cases {fs : FS} {d : PascalVOCSegmentation}
    {index : Nat} {item : ImageEntry}
    (h : d.image_data[index]? = some item) :
    (item.gt_filepath = none →
      PascalVOCSegmentation.getitem fs d index = .error .noneTypeError) ∧
    (∀ p, item.gt_filepath = some p →
      PascalVOCSegmentation.getitem fs d index =
        .ok (item.id, .inl (fs.decodeColor item.image_filepath),
             .inr (fs.decodeGray p))) := by
  constructor
  · intro hn
    simp [PascalVOCSegmentation.getitem, h, CV2ImageLoader, hn]
  · intro p hp
    simp [PascalVOCSegmentation.getitem, h, CV2ImageLoader, hp]

/-- C5 witness: indexed access on the concrete dataset state `d5`: index 0
has an absent label path and errors, index 1 has a present label path and
returns the loaded triple. -/
theorem getitem_label_cases_witness :
    PascalVOCSegmentation.getitem fsW d5 0 = .error .noneTypeError ∧
    PascalVOCSegmentation.getitem fsW d5 1 =
      .ok ("b", .inl (fsW.decodeColor "imgs/b.jpg"), .inr (fsW.decodeGray "lbls/b.png")) :=
  ⟨(@getitem_label_cases fsW d5 0 ⟨"a", "imgs/a.jpg", none⟩ rfl).1 rfl,
   (@getitem_label_cases fsW d5 1 ⟨"b", "imgs/b.jpg", some "lbls/b.png"⟩ rfl).2
     "lbls/b.png" rfl⟩

/-- C10: with all four split-id files readable, constructing with
split `test` passes the split-name assertion but fails with a key-lookup
error on the per-split dictionary, while any split name outside
`train`/`test`/`val` is rejected by the assertion itself. -/
theorem init_test_split_keyerror {fs : FS} {root : String}
    (h1 : (read_image_ids fs (joinPath root "benchmark_RELEASE/dataset/train.txt")).isSome = true)
    (h2 : (read_image_ids fs (joinPath root "benchmark_RELEASE/dataset/val.txt")).isSome = true)
    (h3 : (read_image_ids fs (joinPath root "VOCdevkit/VOC2012/ImageSets/Segmentation/train.txt")).isSome = true)
    (h4 : (read_image_ids fs (joinPath root "VOCdevkit/VOC2012/ImageSets/Segmentation/val.txt")).isSome = true) :
    PascalVOCSegmentation.init fs root "test" = .error (.keyError "test") ∧
    ∀ s : String, ¬ s ∈ (["train", "test", "val"] : List String) →
      PascalVOCSegmentation.init fs root s = .error .assertionError := by
  obtain ⟨btl, hbt⟩ := Option.isSome_iff_exists.mp h1
  obtain ⟨bvl, hbv⟩ := Option.isSome_iff_exists.mp h2
  obtain ⟨vtl, hvt⟩ := Option.isSome_iff_exists.mp h3
  obtain ⟨vvl, hvv⟩ := Option.isSome_iff_exists.mp h4
  constructor
  · simp only [PascalVOCSegmentation.init, hbt, hbv, hvt, hvv]
    rw [if_pos (by decide), if_neg (by decide), if_neg (by decide)]
  · intro s hs
    simp only [PascalVOCSegmentation.init]
    rw [if_neg hs]

/-- C2 counterexample: on the concrete root `fsC2`, which holds only the
two official VOC id files and no benchmark id files, construction with
split `val` does not succeed: it fails with an I/O error on the
unconditional read of the benchmark train id file. -/
theorem init_val_missing_benchmark_fails :
    PascalVOCSegmentation.init fsC2 "r" "val" =
      .error (.ioError "r/benchmark_RELEASE/dataset/train.txt") := by
  decide

/-- C2 amended: when the benchmark id files exist but are empty (the
nearest benchmark-free root that survives the unconditional benchmark
reads) and every official image file exists, construction with split `val`
succeeds and the sample count equals the cardinality of the set difference
of the official-val ids minus the official-train ids. -/
theorem val_count_with_empty_benchmark {fs : FS} {root : String}
    {vtl vvl : List String}
    (hbt : read_image_ids fs (joinPath root "benchmark_RELEASE/dataset/train.txt") = some [])
    (hbv : read_image_ids fs (joinPath root "benchmark_RELEASE/dataset/val.txt") = some [])
    (hvt : read_image_ids fs (joinPath root "VOCdevkit/VOC2012/ImageSets/Segmentation/train.txt") = some vtl)
    (hvv : read_image_ids fs (joinPath root "VOCdevkit/VOC2012/ImageSets/Segmentation/val.txt") = some vvl)
    (hex : ∀ id : String,
      fs.pathExists (joinPath (joinPath root "VOCdevkit/VOC2012/JPEGImages") (id ++ ".jpg")) = true) :
    ∃ d, PascalVOCSegmentation.init fs root "val" = .ok d ∧
      d.image_data.length = (vvl.toFinset \ vtl.toFinset).card := by
  have hok : ∃ d, PascalVOCSegmentation.init fs root "val" = .ok d := by
    cases hinit : PascalVOCSegmentation.init fs root "val" with
    | ok d => exact ⟨d, rfl⟩
    | error e =>
      exfalso
      simp only [PascalVOCSegmentation.init, hbt, hbv, hvt, hvv] at hinit
      rw [if_pos (show ("val" : String) ∈ ["train", "test", "val"] by decide),
        if_neg (show ¬ ("val" : String) = "train" by decide),
        if_pos trivial] at hinit
      exact Except.noConfusion hinit
  obtain ⟨d, hd⟩ := hok
  obtain ⟨btl, bvl, vtl2, vvl2, hbt2, hbv2, hvt2, hvv2, htid, hvid, htd, hvd, hsel⟩ :=
    init_ok_elim hd
  have e1 : btl = [] := Option.some.inj (hbt2.symm.trans hbt)
  have e2 : bvl = [] := Option.some.inj (hbv2.symm.trans hbv)
  have e3 : vtl2 = vtl := Option.some.inj (hvt2.symm.trans hvt)
  have e4 : vvl2 = vvl := Option.some.inj (hvv2.symm.trans hvv)
  rw [e1, e2, e3] at htid
  rw [e4] at hvd
  rcases hsel with ⟨hspl, _⟩ | ⟨_, hsel2⟩
  · exact absurd hspl (by decide)
  · refine ⟨d, hd, ?_⟩
    rw [hsel2, hvd]
    rw [parse_image_paths_length (fun id _ => hex id)]
    have htr : d.train_ids = vtl.toFinset := by
      rw [htid]
      simp [dedup_toFinset]
    have hnd : (vvl.dedup.filter (fun id => decide (¬ id ∈ d.train_ids))).Nodup :=
      (List.nodup_dedup vvl).filter _
    rw [← List.toFinset_card_of_nodup hnd]
    congr 1
    ext a
    simp [List.mem_filter, List.mem_dedup, Finset.mem_sdiff, htr]

/-- C2 amended witness: the count property instantiated on the concrete
root `fsC2e` with official train ids `b` and official val ids `a b`. -/
theorem val_count_with_empty_benchmark_witness :
    ∃ d, PascalVOCSegmentation.init fsC2e "r" "val" = .ok d ∧
      d.image_data.length =
        ((["a", "b"] : List String).toFinset \ (["b"] : List String).toFinset).card :=
  @val_count_with_empty_benchmark fsC2e "r" ["b"] ["a", "b"]
    (by decide) (by decide) (by decide) (by decide) (fun id => rfl)

/-- C10 witness: the `test`-split failure instantiated on the concrete
filesystem `fsW`. -/
theorem init_test_split_keyerror_witness :
    PascalVOCSegmentation.init fsW "r" "test" = .error (.keyError "test") ∧
    ∀ s : String, ¬ s ∈ (["train", "test", "val"] : List String) →
      PascalVOCSegmentation.init fsW "r" s = .error .assertionError :=
  @init_test_split_keyerror fsW "r" (by decide) (by decide) (by decide) (by decide)

end pascal

namespace transforms

theorem scaleDims_fst_le (th tw h w : Nat) : (scaleDims th tw h w).1 ≤ th := by
  rw [scaleDims]
  split
  next hc => exact Nat.div_le_of_le_mul (hc.trans_eq (Nat.mul_comm th w))
  next hc => exact le_refl th

theorem scaleDims_snd_le (th tw h w : Nat) : (scaleDims th tw h w).2 ≤ tw := by
  rw [scaleDims]
  split
  next hc => exact le_refl tw
  next hc =>
    have hlt : th * w ≤ h * tw := le_of_lt (Nat.lt_of_not_le hc)
    exact Nat.div_le_of_le_mul (le_of_eq_of_le (Nat.mul_comm w th) hlt)

end transforms

namespace PascalVOCTransform

open transforms

/-- C6: for every image/label pair and random state, the train-mode joint
augmentation yields image and label rasters of exactly 513 × 513; writing
`dI`/`dL` for the post-crop scaled content dimensions and `flipped` for the
joint flip decision, every position outside the (possibly mirrored) content
rectangle holds the zero pixel in the image and the ignore index 255 in the
label. -/
theorem joint_augmentation_pad (image : Img Pix) (target : Img Nat) (rng : RNG)
    (c : JS) (dI dL : Nat × Nat) (flipped : Bool) (r : JS)
    (hc : c = RandomCrop ((image, target), rng))
    (hdI : dI = scaleDims 513 513 c.1.1.h c.1.1.w)
    (hdL : dL = scaleDims 513 513 c.1.2.h c.1.2.w)
    (hf : flipped = decide ((draw c.2).1 < 1 / 2))
    (hr : r = joint_augmentations ((image, target), rng)) :
    r.1.1.h = 513 ∧ r.1.1.w = 513 ∧ r.1.2.h = 513 ∧ r.1.2.w = 513 ∧
    (∀ i j, i < 513 → j < 513 →
       (dI.1 ≤ i ∨ (if flipped then j < 513 - dI.2 else dI.2 ≤ j)) →
       r.1.1.data i j = ((0 : ℚ), (0 : ℚ), (0 : ℚ))) ∧
    (∀ i j, i < 513 → j < 513 →
       (dL.1 ≤ i ∨ (if flipped then j < 513 - dL.2 else dL.2 ≤ j)) →
       r.1.2.data i j = 255) := by
  have hr2 : r = RandomHorizontalFlip
      (Concat (PadTo (513, 513) ((0 : ℚ), (0 : ℚ), (0 : ℚ)))
        (PadTo (513, 513) (255 : Nat)) (ScaleTo (513, 513) c)) := by
    rw [hr, hc]
    rfl
  clear hr hc
  obtain ⟨⟨cimg, clbl⟩, crng⟩ := c
  have hI1 : (scaleDims 513 513 cimg.h cimg.w).1 ≤ 513 := scaleDims_fst_le 513 513 cimg.h cimg.w
  have hI2 : (scaleDims 513 513 cimg.h cimg.w).2 ≤ 513 := scaleDims_snd_le 513 513 cimg.h cimg.w
  have hL1 : (scaleDims 513 513 clbl.h clbl.w).1 ≤ 513 := scaleDims_fst_le 513 513 clbl.h clbl.w
  have hL2 : (scaleDims 513 513 clbl.h clbl.w).2 ≤ 513 := scaleDims_snd_le 513 513 clbl.h clbl.w
  subst hdI hdL hf hr2
  by_cases hlt : (draw crng).1 < 1 / 2
  · have hfl : decide ((draw crng).1 < 1 / 2) = true := decide_eq_true hlt
    simp only [RandomHorizontalFlip, Concat, ScaleTo, PadTo, padImg, scaleImg, hflip,
      if_pos hlt, hfl, eq_self_iff_true, if_true, Nat.max_eq_right hI1,
      Nat.max_eq_right hI2, Nat.max_eq_right hL1, Nat.max_eq_right hL2]
    refine ⟨trivial, trivial, trivial, trivial, ?_, ?_⟩
    · intro i j hi hj hcond
      rw [if_neg]
      omega
    · intro i j hi hj hcond
      rw [if_neg]
      omega
  · have hfl : decide ((draw crng).1 < 1 / 2) = false := decide_eq_false hlt
    simp only [RandomHorizontalFlip, Concat, ScaleTo, PadTo, padImg, scaleImg, hflip,
      if_neg hlt, hfl, Bool.false_eq_true, if_false, Nat.max_eq_right hI1,
      Nat.max_eq_right hI2, Nat.max_eq_right hL1, Nat.max_eq_right hL2]
    refine ⟨trivial, trivial, trivial, trivial, ?_, ?_⟩
    · intro i j hi hj hcond
      rw [if_neg]
      omega
    · intro i j hi hj hcond
      rw [if_neg]
      omega

/-- C6 witness: the joint augmentation of the concrete pair `imgW`, `lblW`
under the empty random stream has spatial dimensions exactly 513 × 513. -/
theorem joint_augmentation_pad_witness :
    (joint_augmentations ((imgW, lblW), ([] : RNG))).1.1.h = 513 ∧
    (joint_augmentations ((imgW, lblW), ([] : RNG))).1.1.w = 513 ∧
    (joint_augmentations ((imgW, lblW), ([] : RNG))).1.2.h = 513 ∧
    (joint_augmentations ((imgW, lblW), ([] : RNG))).1.2.w = 513 :=
  have h := joint_augmentation_pad imgW lblW [] _ _ _ _ _ rfl rfl rfl rfl rfl
  ⟨h.1, h.2.1, h.2.2.1, h.2.2.2.1⟩

/-- C7: in train mode the pipeline applies float conversion, then the joint
geometric augmentations to image and label, then hue/saturation, contrast
and brightness in this fixed order to the image only, then tensor
conversion and normalization of the image and category conversion of the
label; in any non-train (eval) mode the geometric and photometric stages
are skipped and only float conversion, normalization, and tensor conversion
are applied. -/
theorem call_stage_order (ps : PhotometricSem) (mode : String)
    (image : Img Pix) (target : Img Nat) (rng : RNG) :
    (call ps "train" image target rng =
      (let fl := image_loader image
       let j := joint_augmentations ((fl, target), rng)
       let a1 := RandomHueSaturation ps 0.05 (0.7, 1.3) (j.1.1, j.2)
       let a2 := RandomContrast ps 0.8 1.2 a1
       let a3 := RandomBrightness (-32 / 255) (32 / 255) a2
       ((tensor_transforms a3.1, ToCategoryTensor j.1.2), a3.2))) ∧
    (¬ mode = "train" →
      call ps mode image target rng =
        ((tensor_transforms (image_loader image), ToCategoryTensor target), rng)) := by
  constructor
  · rfl
  · intro hm
    simp only [call]
    rw [if_neg hm]

/-- C7 witness: the eval-mode pipeline on the concrete inputs reduces to
float conversion, normalization and tensor conversion only. -/
theorem call_stage_order_witness :
    call psW "eval" imgW lblW [] =
      ((tensor_transforms (image_loader imgW), ToCategoryTensor lblW), []) :=
  (call_stage_order psW "eval" imgW lblW []).2 (by decide)

/-- C8: in any non-train (eval) mode the transform output does not depend
on the random state and the random state is returned unchanged, so applying
the eval-mode transform twice to the same input yields identical output
tensors. -/
theorem call_eval_deterministic (ps : PhotometricSem) (mode : String)
    (image : Img Pix) (target : Img Nat) (rng₁ rng₂ : RNG)
    (hm : ¬ mode = "train") :
    (call ps mode image target rng₁).1 = (call ps mode image target rng₂).1 ∧
    (call ps mode image target rng₁).2 = rng₁ := by
  constructor
  · simp only [call]
    rw [if_neg hm, if_neg hm]
  · simp only [call]
    rw [if_neg hm]

/-- C8 witness: the eval-mode determinism instantiated on the concrete
inputs with two different random streams. -/
theorem call_eval_deterministic_witness :
    (call psW "eval" imgW lblW [0]).1 = (call psW "eval" imgW lblW []).1 ∧
    (call psW "eval" imgW lblW [0]).2 = [0] :=
  call_eval_deterministic psW "eval" imgW lblW [0] [] (by decide)

end PascalVOCTransform

namespace loggers

theorem foldl_add_scalar (l : List (String × ℚ)) (w : List ScalarEntry)
    (g : String × ℚ → ScalarEntry) :
    l.foldl (fun acc kv => acc ++ [g kv]) w = w ++ l.map g := by
  induction l generalizing w with
  | nil => simp
  | cons x xs ih =>
    simp only [List.foldl_cons, List.map_cons, ih, List.append_assoc,
      List.singleton_append]

/-- C9: `log_metrics` writes exactly one scalar entry per flattened dotted
key of the nested metric mapping, each tagged `prefix/key` at the given
iteration; in particular the nested mapping `a ↦ b ↦ 1` with `train`
produces the single entry tagged `train/a.b`. -/
theorem log_metrics_flatten (w : List ScalarEntry) (iteration : Nat)
    (metrics : Metrics) (pre : String) :
    TensorboardLogger.log_metrics w iteration metrics pre =
      w ++ (flatten_dict metrics).map
        (fun kv => ⟨pre ++ "/" ++ kv.1, kv.2, iteration⟩) ∧
    TensorboardLogger.log_metrics [] 7
        [("a", .dict [("b", .scalar 1)])] "train" =
      [⟨"train/a.b", 1, 7⟩] := by
  constructor
  · rw [TensorboardLogger.log_metrics]
    exact foldl_add_scalar (flatten_dict metrics) w _
  · simp [TensorboardLogger.log_metrics, flatten_dict, flattenEntries,
      flattenValue, add_scalar]

end loggers

end SemSeg
